import Mathlib

/-!
Verification of the dhammer orchestrator (package hammer, file hammer.go).

The orchestrator is embedded shallowly as trace-producing functions.  Every
call the orchestrator makes into a subsystem (stats, socketeer, handler,
generator, API server) is recorded as an `Event`; the outcome of each
fallible call (the `error` the Go callee returns, `nil` or not) is supplied
by an environment record, since the concrete subsystem implementations are
registry-selected collaborators outside this file's source.  Errors the
orchestrator hands to its `addError` callback are accumulated in a `reported`
list; the bounded-channel semantics of `addError`/`addLog`/`addStats`
themselves are modelled separately, directly from their `select` bodies.
-/

namespace DHammer

/-- Go `error` values are modelled by their message strings; `nil` is `none`. -/
abbrev Err := String

/-- One call the orchestrator makes, in the order the Go source makes them.
Constructors cover the `Init` sequence (hammer.go lines 57-97), the goroutine
spawns of `Run` (lines 118-204), the external `Stop` (lines 238-244), and the
cascade `stop`/`deInit` (lines 99-117 and 246-281). -/
inductive Event where
  | statsNew
  | statsInit
  | socketeerNew
  | socketeerInit
  | handlerNew
  | handlerInit
  | setReceiver
  | generatorNew
  | generatorInit
  | initApiServer
  | errReaderStart
  | statsRunStart
  | writerRunStart
  | handlerRunStart
  | listenerRunStart
  | logReaderStart
  | statsReaderStart
  | generatorRunStart
  | apiServerStart
  | apiServerWaitStop
  | generatorStop
  | stopApiServer
  | stopListener
  | handlerStop
  | stopWriter
  | statsStop
  | socketeerDeInit
  | handlerDeInit
  | generatorDeInit
  | statsDeInit
  | closeErrorChannel
  | closeLogChannel
  | closeStatsChannel
deriving DecidableEq, BEq

/-- Events that stop, de-initialize, or close anything (any form of rollback
or teardown activity). -/
def Event.isShutdown : Event → Bool
  | .generatorStop => true
  | .stopApiServer => true
  | .stopListener => true
  | .handlerStop => true
  | .stopWriter => true
  | .statsStop => true
  | .socketeerDeInit => true
  | .handlerDeInit => true
  | .generatorDeInit => true
  | .statsDeInit => true
  | .closeErrorChannel => true
  | .closeLogChannel => true
  | .closeStatsChannel => true
  | _ => false

/-- Channel-close events. -/
def Event.isClose : Event → Bool
  | .closeErrorChannel => true
  | .closeLogChannel => true
  | .closeStatsChannel => true
  | _ => false

/-- The trace state threaded through the orchestrator: the calls made so far
and the errors handed to the addError callback so far. -/
structure Trace where
  events : List Event
  reported : List Err
deriving DecidableEq

/-- Record a call that returns no error (or whose error is not checked). -/
def emit (ev : Event) (st : Trace) : Trace :=
  { st with events := st.events ++ [ev] }

/-- Record a call and, when its result is a non-nil error, hand the error to
addError — the Go pattern `if err = f(); err != nil then h.addError(err)`
used throughout `Hammer.stop` and `Hammer.deInit`. -/
def tstep (ev : Event) (res : Option Err) (st : Trace) : Trace :=
  match res with
  | some e => { events := st.events ++ [ev], reported := st.reported ++ [e] }
  | none => { events := st.events ++ [ev], reported := st.reported }

/-- Outcomes of the fallible calls `Hammer.Init` makes, in source order
(hammer.go lines 57-97).  `socketeer.NewRawSocketeer`, `SetReceiver` and
`initApiServer` return no error in the source, so they have no field here. -/
structure InitEnv where
  statsNewErr : Option Err
  statsInitErr : Option Err
  socketeerInitErr : Option Err
  handlerNewErr : Option Err
  handlerInitErr : Option Err
  generatorNewErr : Option Err
  generatorInitErr : Option Err

/-- A fallible `Init` step: record the call; a non-nil error is returned to
the caller at once (the Go `if err != nil return err`), otherwise continue. -/
def ifail (ev : Event) (res : Option Err) (k : List Event → List Event × Option Err)
    (tr : List Event) : List Event × Option Err :=
  match res with
  | some e => (tr ++ [ev], some e)
  | none => k (tr ++ [ev])

/-- An infallible `Init` step: record the call and continue. -/
def iok (ev : Event) (k : List Event → List Event × Option Err)
    (tr : List Event) : List Event × Option Err :=
  k (tr ++ [ev])

/-- `Hammer.Init` (hammer.go lines 57-97): stats.New, stats.Init,
NewRawSocketeer, socketeer.Init, handler.New, handler.Init, SetReceiver,
generator.New, generator.Init, initApiServer, with an early `return err`
after any failing step.  Returns the calls made and the returned error. -/
def Hammer.Init (env : InitEnv) : List Event × Option Err :=
  ifail .statsNew env.statsNewErr
  (ifail .statsInit env.statsInitErr
  (iok .socketeerNew
  (ifail .socketeerInit env.socketeerInitErr
  (ifail .handlerNew env.handlerNewErr
  (ifail .handlerInit env.handlerInitErr
  (iok .setReceiver
  (ifail .generatorNew env.generatorNewErr
  (ifail .generatorInit env.generatorInitErr
  (iok .initApiServer
  (fun tr => (tr, none)))))))))))
  []

/-- Outcomes of the four DeInit calls made by `Hammer.deInit`
(hammer.go lines 99-117), in source order. -/
structure DeInitEnv where
  socketeerDeInitErr : Option Err
  handlerDeInitErr : Option Err
  generatorDeInitErr : Option Err
  statsDeInitErr : Option Err

/-- `Hammer.deInit` (hammer.go lines 99-117): DeInit the socketeer, handler,
generator and stats in that order; each non-nil error goes to addError and
the next step runs regardless. -/
def Hammer.deInit (env : DeInitEnv) (st : Trace) : Trace :=
  tstep .statsDeInit env.statsDeInitErr
  (tstep .generatorDeInit env.generatorDeInitErr
  (tstep .handlerDeInit env.handlerDeInitErr
  (tstep .socketeerDeInit env.socketeerDeInitErr st)))

/-- Outcomes of the fallible calls made during the cascade `Hammer.stop`
(hammer.go lines 246-281), in source order, plus the nested deInit outcomes. -/
structure StopEnv where
  apiStopErr : Option Err
  stopListenerErr : Option Err
  handlerStopErr : Option Err
  stopWriterErr : Option Err
  statsStopErr : Option Err
  deinit : DeInitEnv

/-- `Hammer.stop` (hammer.go lines 246-281): stop the API server, the
socketeer listener, the handler, the socketeer writer and stats, in that
order, reporting each non-nil error via addError and never aborting; then
`deInit`; then close the error, log and stats channels, in that order. -/
def Hammer.stop (env : StopEnv) (st : Trace) : Trace :=
  emit .closeStatsChannel
  (emit .closeLogChannel
  (emit .closeErrorChannel
  (Hammer.deInit env.deinit
  (tstep .statsStop env.statsStopErr
  (tstep .stopWriter env.stopWriterErr
  (tstep .handlerStop env.handlerStopErr
  (tstep .stopListener env.stopListenerErr
  (tstep .stopApiServer env.apiStopErr st))))))))

/-- Outcomes of the API-server calls made by `Hammer.startApiServer`
(hammer.go lines 337-345). -/
structure ApiEnv where
  startErr : Option Err
  waitStopErr : Option Err

/-- `Hammer.startApiServer` (hammer.go lines 337-345): Start, then WaitStop
with a 2-second bound; each non-nil error goes to addError. -/
def Hammer.startApiServer (env : ApiEnv) (st : Trace) : Trace :=
  tstep .apiServerWaitStop env.waitStopErr
  (tstep .apiServerStart env.startErr st)

/-- All call outcomes occurring during `Hammer.Run`. -/
structure RunEnv where
  teardown : StopEnv
  api : ApiEnv

/-- `Hammer.Run` (hammer.go lines 118-207), as a sequential linearization of
its goroutine structure: the seven reader/subsystem goroutines and the
generator goroutine are recorded at their spawn points; when the generator's
Run returns, that one goroutine invokes the cascade `stop` (line 196) — the
only call site of `stop` in the source; the foreground API server's
Start/WaitStop are recorded after it (their real-time position is concurrent
with the background work and no property proved here depends on it).  The
channel-reader loop bodies consume messages and are not recorded.  The
function's own result is the final `return nil` of line 206, the only return
statement in its body. -/
def Hammer.Run (env : RunEnv) : Trace × Option Err :=
  (Hammer.startApiServer env.api
  (Hammer.stop env.teardown
  (emit .generatorRunStart
  (emit .statsReaderStart
  (emit .logReaderStart
  (emit .listenerRunStart
  (emit .handlerRunStart
  (emit .writerRunStart
  (emit .statsRunStart
  (emit .errReaderStart { events := [], reported := [] }))))))))), none)

/-- Whether a Go function returned normally or panicked. -/
inductive GoOutcome where
  | ok
  | panicked (e : Err)
deriving DecidableEq

/-- `Hammer.Stop` (hammer.go lines 238-244), the external stop: call
generator.Stop and panic when it returns a non-nil error.  The argument is
the error generator.Stop returns. -/
def Hammer.Stop (generatorStopErr : Option Err) : List Event × GoOutcome :=
  match generatorStopErr with
  | some e => ([.generatorStop], .panicked e)
  | none => ([.generatorStop], .ok)

/-- All three fan-in channels are created with capacity 1000
(hammer.go lines 49-51). -/
def chanCapacity : Nat := 1000

/-- `Hammer.addError` (hammer.go lines 209-216): a Go
`select / case ch <- e / default` on a buffered channel — when the buffer is
below capacity the value is enqueued and the call returns true, otherwise the
buffer is untouched and the call returns false. -/
def Hammer.addError (ch : List Err) (e : Err) : List Err × Bool :=
  if ch.length < chanCapacity then (ch ++ [e], true) else (ch, false)

/-- `Hammer.addLog` (hammer.go lines 218-226): same non-blocking send on the
log channel. -/
def Hammer.addLog (ch : List String) (s : String) : List String × Bool :=
  if ch.length < chanCapacity then (ch ++ [s], true) else (ch, false)

/-- `Hammer.addStats` (hammer.go lines 228-236): same non-blocking send on
the stats channel. -/
def Hammer.addStats (ch : List String) (s : String) : List String × Bool :=
  if ch.length < chanCapacity then (ch ++ [s], true) else (ch, false)

/-- An HTTP response as the handlers build it: status code and body. -/
structure HttpResponse where
  status : Nat
  body : String
deriving DecidableEq

/-- Go `http.Error(w, msg, code)` (net/http library): sets the status code
and writes the error text followed by a newline. -/
def httpError (e : Err) (code : Nat) : HttpResponse :=
  { status := code, body := e ++ "\n" }

/-- The success body written by updateHandler (hammer.go line 317). -/
def updateOkBody : String := "\x7b\"status\": \"ok\"\x7d"

/-- Outcomes of the calls `Hammer.updateHandler` makes for one PUT /update
request.  `M` is the type of the decoded JSON mapping (Go
`map[string]interface` with arbitrary values, kept abstract).  `readBody` is
the outcome of ioutil.ReadAll on the request body, `parse` the outcome of
json.Unmarshal on that body, `updateResult` the error generator.Update
returns when called on the parsed mapping. -/
structure UpdateEnv (M : Type) where
  readBody : Except Err String
  parse : Except Err M
  updateResult : Option Err

/-- `Hammer.updateHandler` (hammer.go lines 291-318): a read failure or a
JSON-parse failure is reported via addError and answered 400 with the error
text, without calling generator.Update; an Update failure is reported via
addError and answered 500 with the error text; otherwise the success body is
written with status 200.  Returns the response, the list of arguments
generator.Update was called with, and the errors handed to addError. -/
def Hammer.updateHandler {M : Type} (env : UpdateEnv M) :
    HttpResponse × List M × List Err :=
  match env.readBody with
  | .error e => (httpError e 400, [], [e])
  | .ok _ =>
    match env.parse with
    | .error e => (httpError e 400, [], [e])
    | .ok details =>
      match env.updateResult with
      | some e => (httpError e 500, [details], [e])
      | none => ({ status := 200, body := updateOkBody }, [details], [])

/-- `AddStatter` (stats.go): registering under a name already present in the
statters map returns a duplicate-type error and stores nothing; otherwise the
factory is stored under the name.  The Go map is embedded as an association
list looked up by key. -/
def AddStatter {F : Type} (statters : List (String × F)) (s : String) (f : F) :
    List (String × F) × Option Err :=
  match statters.lookup s with
  | some _ => (statters, some ("Stats type already exists: " ++ s))
  | none => (statters ++ [(s, f)], none)

/-- Go fmt Printf-style processing of a format string with ZERO operands
(the fmt library, outside src/): a double percent emits one literal percent;
a percent ending the string emits the NOVERB diagnostic; any other percent
directive is out of operands and emits the MISSING diagnostic for its verb
character (fmt checks for exhausted operands before validating the verb).
Flag, width and precision characters between the percent and the verb (as in
a percent-5-d directive), which fmt would consume first, are not modelled;
no property proved below uses such a format. -/
def sprintfNoArgs : List Char → List Char
  | [] => []
  | ['%'] => "%!(NOVERB)".data
  | '%' :: '%' :: rest => '%' :: sprintfNoArgs rest
  | '%' :: c :: rest => "%!".data ++ c :: ("(MISSING)".data ++ sprintfNoArgs rest)
  | c :: rest => c :: sprintfNoArgs rest

/-- `Hammer.statsHandler` (hammer.go lines 287-289): the GET /stats handler
writes the stats snapshot with fmt.Fprintf, passing the snapshot string as
the FORMAT argument with no operands, and never sets a status code, so the
response is 200.  The argument is the string stats.String returned. -/
def Hammer.statsHandler (snapshot : String) : HttpResponse :=
  { status := 200, body := String.mk (sprintfNoArgs snapshot.data) }

/-- The calls of one full cascade teardown, in the order `Hammer.stop` makes
them. -/
def cascadeEvents : List Event :=
  [.stopApiServer, .stopListener, .handlerStop, .stopWriter, .statsStop,
   .socketeerDeInit, .handlerDeInit, .generatorDeInit, .statsDeInit,
   .closeErrorChannel, .closeLogChannel, .closeStatsChannel]

/-- The Stop/DeInit portion of the cascade, before any channel close. -/
def cascadeStopDeInitEvents : List Event :=
  [.stopApiServer, .stopListener, .handlerStop, .stopWriter, .statsStop,
   .socketeerDeInit, .handlerDeInit, .generatorDeInit, .statsDeInit]

/-- The non-nil errors of the cascade's steps, in the order the steps run. -/
def stopErrors (env : StopEnv) : List Err :=
  env.apiStopErr.toList ++ env.stopListenerErr.toList ++
  env.handlerStopErr.toList ++ env.stopWriterErr.toList ++
  env.statsStopErr.toList ++ env.deinit.socketeerDeInitErr.toList ++
  env.deinit.handlerDeInitErr.toList ++ env.deinit.generatorDeInitErr.toList ++
  env.deinit.statsDeInitErr.toList

/-- The calls of a fully successful `Hammer.Init`, in source order. -/
def initSequence : List Event :=
  [.statsNew, .statsInit, .socketeerNew, .socketeerInit, .handlerNew,
   .handlerInit, .setReceiver, .generatorNew, .generatorInit, .initApiServer]

/-- A teardown environment in which every call succeeds. -/
def stopEnvAllNil : StopEnv :=
  { apiStopErr := none, stopListenerErr := none, handlerStopErr := none,
    stopWriterErr := none, statsStopErr := none,
    deinit := { socketeerDeInitErr := none, handlerDeInitErr := none,
                generatorDeInitErr := none, statsDeInitErr := none } }

/-- The empty trace state. -/
def emptyTrace : Trace := { events := [], reported := [] }

/-- An Init environment in which every call succeeds. -/
def initEnvAllNil : InitEnv :=
  { statsNewErr := none, statsInitErr := none, socketeerInitErr := none,
    handlerNewErr := none, handlerInitErr := none, generatorNewErr := none,
    generatorInitErr := none }

/-- An Init environment in which handler.Init fails and every earlier call
succeeds. -/
def initEnvHandlerInitFails : InitEnv :=
  { statsNewErr := none, statsInitErr := none, socketeerInitErr := none,
    handlerNewErr := none, handlerInitErr := some "handler init failed",
    generatorNewErr := none, generatorInitErr := none }

/-- An update request whose body does not parse as JSON. -/
def updateEnvParseFails : UpdateEnv String :=
  { readBody := .ok "not-json", parse := .error "invalid character",
    updateResult := none }

/-- An update request that reads, parses and applies successfully. -/
def updateEnvOk : UpdateEnv String :=
  { readBody := .ok "\x7b\"rate\": 100\x7d", parse := .ok "rate 100",
    updateResult := none }

/-! ## Helper lemmas -/

lemma tstep_events (ev : Event) (res : Option Err) (st : Trace) :
    (tstep ev res st).events = st.events ++ [ev] := by
  cases res <;> rfl

lemma tstep_reported (ev : Event) (res : Option Err) (st : Trace) :
    (tstep ev res st).reported = st.reported ++ res.toList := by
  cases res <;> simp [tstep]

lemma stop_events (env : StopEnv) (st : Trace) :
    (Hammer.stop env st).events = st.events ++ cascadeEvents := by
  simp [Hammer.stop, Hammer.deInit, emit, tstep_events, cascadeEvents]

lemma stop_reported (env : StopEnv) (st : Trace) :
    (Hammer.stop env st).reported = st.reported ++ stopErrors env := by
  simp [Hammer.stop, Hammer.deInit, emit, tstep_reported, stopErrors]

lemma run_events (env : RunEnv) :
    (Hammer.Run env).1.events =
      [.errReaderStart, .statsRunStart, .writerRunStart, .handlerRunStart,
       .listenerRunStart, .logReaderStart, .statsReaderStart,
       .generatorRunStart] ++ cascadeEvents ++
      [.apiServerStart, .apiServerWaitStop] := by
  simp [Hammer.Run, Hammer.startApiServer, emit, tstep_events, stop_events]

lemma lookup_append_of_not_found {F : Type} (l : List (String × F)) (s : String) (f : F)
    (h : l.lookup s = none) : (l ++ [(s, f)]).lookup s = some f := by
  induction l with
  | nil => simp [List.lookup]
  | cons a t ih =>
    obtain ⟨k, v⟩ := a
    simp only [List.cons_append, List.lookup] at h ⊢
    cases hk : (s == k) with
    | true => rw [hk] at h; exact Option.noConfusion h
    | false => rw [hk] at h; exact ih h

/-! ## Claim theorems -/

/-- C1: When the Generator's Run loop returns, the orchestrator executes
exactly one full cascade teardown in the order: stop the control-plane
server, Transport.StopListener, Handler.Stop, Transport.StopWriter,
Statistics.Stop, then DeInit on all four subsystems, then close the fan-in
channels; every non-nil error from any step is handed to the error-channel
send (addError) and no step's failure prevents any later step from
executing. -/
theorem run_single_full_cascade_teardown (env : StopEnv) (st : Trace) (renv : RunEnv) :
    (Hammer.stop env st).events = st.events ++ cascadeEvents ∧
    (Hammer.stop env st).reported = st.reported ++ stopErrors env ∧
    (cascadeEvents.all fun ev => (Hammer.Run renv).1.events.count ev == 1) = true := by
  refine ⟨stop_events env st, stop_reported env st, ?_⟩
  rw [run_events renv]
  decide

/-- C2: Init constructs and initializes the subsystems in the order
Statistics, Transport, Handler, Generator; it binds Transport's receive
callback to the handler only after both Transport and Handler have completed
Init; and any non-nil error from a construction or Init step makes Init
return that error immediately, performing no later step.  Stated as a
complete case enumeration of `Hammer.Init` over the first failing step. -/
theorem init_sequence_contract (env : InitEnv) :
    (∀ e, env.statsNewErr = some e →
      Hammer.Init env = ([.statsNew], some e)) ∧
    (∀ e, env.statsNewErr = none → env.statsInitErr = some e →
      Hammer.Init env = ([.statsNew, .statsInit], some e)) ∧
    (∀ e, env.statsNewErr = none → env.statsInitErr = none →
      env.socketeerInitErr = some e →
      Hammer.Init env =
        ([.statsNew, .statsInit, .socketeerNew, .socketeerInit], some e)) ∧
    (∀ e, env.statsNewErr = none → env.statsInitErr = none →
      env.socketeerInitErr = none → env.handlerNewErr = some e →
      Hammer.Init env =
        ([.statsNew, .statsInit, .socketeerNew, .socketeerInit, .handlerNew],
         some e)) ∧
    (∀ e, env.statsNewErr = none → env.statsInitErr = none →
      env.socketeerInitErr = none → env.handlerNewErr = none →
      env.handlerInitErr = some e →
      Hammer.Init env =
        ([.statsNew, .statsInit, .socketeerNew, .socketeerInit, .handlerNew,
          .handlerInit], some e)) ∧
    (∀ e, env.statsNewErr = none → env.statsInitErr = none →
      env.socketeerInitErr = none → env.handlerNewErr = none →
      env.handlerInitErr = none → env.generatorNewErr = some e →
      Hammer.Init env =
        ([.statsNew, .statsInit, .socketeerNew, .socketeerInit, .handlerNew,
          .handlerInit, .setReceiver, .generatorNew], some e)) ∧
    (∀ e, env.statsNewErr = none → env.statsInitErr = none →
      env.socketeerInitErr = none → env.handlerNewErr = none →
      env.handlerInitErr = none → env.generatorNewErr = none →
      env.generatorInitErr = some e →
      Hammer.Init env =
        ([.statsNew, .statsInit, .socketeerNew, .socketeerInit, .handlerNew,
          .handlerInit, .setReceiver, .generatorNew, .generatorInit], some e)) ∧
    (env.statsNewErr = none → env.statsInitErr = none →
      env.socketeerInitErr = none → env.handlerNewErr = none →
      env.handlerInitErr = none → env.generatorNewErr = none →
      env.generatorInitErr = none →
      Hammer.Init env = (initSequence, none)) ∧
    (Event.setReceiver ∈ (Hammer.Init env).1 →
      Event.socketeerInit ∈ (Hammer.Init env).1 ∧
      Event.handlerInit ∈ (Hammer.Init env).1) := by
  obtain ⟨a, b, c, d, e2, f, g⟩ := env
  refine ⟨?_, ?_, ?_, ?_, ?_, ?_, ?_, ?_, ?_⟩
  · intro e h; subst h; rfl
  · intro e h1 h2; subst h1; subst h2; rfl
  · intro e h1 h2 h3; subst h1; subst h2; subst h3; rfl
  · intro e h1 h2 h3 h4; subst h1; subst h2; subst h3; subst h4; rfl
  · intro e h1 h2 h3 h4 h5
    subst h1; subst h2; subst h3; subst h4; subst h5; rfl
  · intro e h1 h2 h3 h4 h5 h6
    subst h1; subst h2; subst h3; subst h4; subst h5; subst h6; rfl
  · intro e h1 h2 h3 h4 h5 h6 h7
    subst h1; subst h2; subst h3; subst h4; subst h5; subst h6; subst h7; rfl
  · intro h1 h2 h3 h4 h5 h6 h7
    subst h1; subst h2; subst h3; subst h4; subst h5; subst h6; subst h7; rfl
  · cases a <;> cases b <;> cases c <;> cases d <;> cases e2 <;> cases f <;>
      cases g <;> simp [Hammer.Init, ifail, iok]

/-- Witness for C2: a concrete failing Init (handler.Init fails) stops at
handler.Init and returns its error; a concrete all-nil Init performs the full
sequence and returns nil. -/
theorem init_sequence_contract_witness :
    Hammer.Init initEnvHandlerInitFails =
      ([.statsNew, .statsInit, .socketeerNew, .socketeerInit, .handlerNew,
        .handlerInit], some "handler init failed") ∧
    Hammer.Init initEnvAllNil = (initSequence, none) :=
  ⟨(init_sequence_contract initEnvHandlerInitFails).2.2.2.2.1
      "handler init failed" rfl rfl rfl rfl rfl,
   (init_sequence_contract initEnvAllNil).2.2.2.2.2.2.2.1
      rfl rfl rfl rfl rfl rfl rfl⟩

/-- C3 counterexample: on a concrete run of the cascade, the error channel is
closed strictly before the log channel, so the channels are not closed in the
order log, stat, error claimed by the spec (and the three closes are
successive statements of a single goroutine, hence not concurrent). -/
theorem close_order_counterexample :
    (Hammer.stop stopEnvAllNil emptyTrace).events.indexOf Event.closeErrorChannel <
      (Hammer.stop stopEnvAllNil emptyTrace).events.indexOf Event.closeLogChannel ∧
    ¬ ((Hammer.stop stopEnvAllNil emptyTrace).events.indexOf Event.closeLogChannel <
        (Hammer.stop stopEnvAllNil emptyTrace).events.indexOf Event.closeStatsChannel ∧
       (Hammer.stop stopEnvAllNil emptyTrace).events.indexOf Event.closeStatsChannel <
        (Hammer.stop stopEnvAllNil emptyTrace).events.indexOf Event.closeErrorChannel) := by
  decide

/-- C3 (amended): in the final teardown step the fan-in channels are closed
in the order error, log, stat, and only after every subsystem Stop and DeInit
call has been made. -/
theorem close_order_after_stops (env : StopEnv) (st : Trace) :
    (Hammer.stop env st).events =
      st.events ++ (cascadeStopDeInitEvents ++
        [Event.closeErrorChannel, Event.closeLogChannel, Event.closeStatsChannel]) ∧
    (cascadeStopDeInitEvents.all fun ev => !ev.isClose) = true := by
  refine ⟨?_, by decide⟩
  rw [stop_events env st]
  rfl

/-- C4: the external Stop calls only Generator.Stop and nothing else — no
API-server stop, no Transport/Handler/Statistics stop, no channel close —
and it panics if and only if Generator.Stop returns a non-nil error. -/
theorem external_stop_only_generator (r : Option Err) :
    (Hammer.Stop r).1 = [Event.generatorStop] ∧
    (∀ e, (Hammer.Stop r).2 = GoOutcome.panicked e ↔ r = some e) ∧
    ((Hammer.Stop r).2 = GoOutcome.ok ↔ r = none) := by
  cases r <;> simp [Hammer.Stop]

/-- Witness for C4 at concrete inputs: a failing generator stop panics with
its error; a nil generator stop returns normally. -/
theorem external_stop_only_generator_witness :
    (Hammer.Stop (some "gen stop failed")).2 = GoOutcome.panicked "gen stop failed" ∧
    (Hammer.Stop none).2 = GoOutcome.ok :=
  ⟨((external_stop_only_generator (some "gen stop failed")).2.1
      "gen stop failed").mpr rfl,
   ((external_stop_only_generator none).2.2).mpr rfl⟩

/-- C5: for every fan-in channel state and message, the non-blocking send
(addError, addLog, addStats) appends the message and returns true when the
channel is below capacity, and returns false leaving the channel unchanged
when it is at (or beyond) capacity. -/
theorem fanin_nonblocking_send (le : List Err) (e : Err) (ll ls : List String)
    (m w : String) :
    (le.length < chanCapacity → Hammer.addError le e = (le ++ [e], true)) ∧
    (¬ le.length < chanCapacity → Hammer.addError le e = (le, false)) ∧
    (ll.length < chanCapacity → Hammer.addLog ll m = (ll ++ [m], true)) ∧
    (¬ ll.length < chanCapacity → Hammer.addLog ll m = (ll, false)) ∧
    (ls.length < chanCapacity → Hammer.addStats ls w = (ls ++ [w], true)) ∧
    (¬ ls.length < chanCapacity → Hammer.addStats ls w = (ls, false)) := by
  refine ⟨?_, ?_, ?_, ?_, ?_, ?_⟩ <;> intro h <;>
    simp [Hammer.addError, Hammer.addLog, Hammer.addStats, h]

/-- Witness for C5: a log channel filled to capacity drops the message and
reports false; an empty error channel accepts the message and reports
true. -/
theorem fanin_nonblocking_send_witness :
    Hammer.addLog (List.replicate chanCapacity "x") "m" =
      (List.replicate chanCapacity "x", false) ∧
    Hammer.addError [] "boom" = (["boom"], true) :=
  ⟨(fanin_nonblocking_send [] "boom" (List.replicate chanCapacity "x") [] "m" "w").2.2.2.1
      (by simp),
   (fanin_nonblocking_send [] "boom" [] [] "m" "w").1 (by simp [chanCapacity])⟩

/-- C6: for every PUT /update request: a body-read failure or JSON-parse
failure yields status 400 carrying the error text and Generator.Update is
never called; an Update failure yields status 500 carrying the error text;
otherwise status 200 with the ok body, and Update was called exactly once
with the parsed mapping. -/
theorem update_handler_contract {M : Type} (env : UpdateEnv M) :
    (∀ e, env.readBody = .error e →
      Hammer.updateHandler env =
        ({ status := 400, body := e ++ "\n" }, ([] : List M), [e])) ∧
    (∀ e b, env.readBody = .ok b → env.parse = .error e →
      Hammer.updateHandler env =
        ({ status := 400, body := e ++ "\n" }, ([] : List M), [e])) ∧
    (∀ e b d, env.readBody = .ok b → env.parse = .ok d →
      env.updateResult = some e →
      Hammer.updateHandler env =
        ({ status := 500, body := e ++ "\n" }, [d], [e])) ∧
    (∀ b d, env.readBody = .ok b → env.parse = .ok d →
      env.updateResult = none →
      Hammer.updateHandler env =
        ({ status := 200, body := updateOkBody }, [d], [])) := by
  obtain ⟨rb, p, u⟩ := env
  refine ⟨?_, ?_, ?_, ?_⟩
  · intro e h; subst h; rfl
  · intro e b h1 h2; subst h1; subst h2; rfl
  · intro e b d h1 h2 h3; subst h1; subst h2; subst h3; rfl
  · intro b d h1 h2 h3; subst h1; subst h2; subst h3; rfl

/-- Witness for C6: a concrete unparsable body yields 400 with the parse
error text and no Update call; a concrete well-formed request yields 200
with the ok body and exactly one Update call with the parsed mapping. -/
theorem update_handler_contract_witness :
    Hammer.updateHandler updateEnvParseFails =
      ({ status := 400, body := "invalid character" ++ "\n" },
       ([] : List String), ["invalid character"]) ∧
    Hammer.updateHandler updateEnvOk =
      ({ status := 200, body := updateOkBody }, ["rate 100"], []) :=
  ⟨(update_handler_contract updateEnvParseFails).2.1
      "invalid character" "not-json" rfl rfl,
   (update_handler_contract updateEnvOk).2.2.2
      "\x7b\"rate\": 100\x7d" "rate 100" rfl rfl rfl⟩

/-- C7: registering a statter factory under a name that already has one
returns the duplicate-type error and leaves the registry unchanged (so the
first registration stays authoritative); registering under a fresh name
stores the factory (it becomes the one the registry resolves for that name)
and returns no error. -/
theorem register_duplicate_and_fresh {F : Type} (statters : List (String × F))
    (s : String) (f : F) :
    (∀ g, statters.lookup s = some g →
      AddStatter statters s f =
        (statters, some ("Stats type already exists: " ++ s))) ∧
    (statters.lookup s = none →
      AddStatter statters s f = (statters ++ [(s, f)], none) ∧
      (statters ++ [(s, f)]).lookup s = some f) := by
  constructor
  · intro g h; simp [AddStatter, h]
  · intro h
    exact ⟨by simp [AddStatter, h], lookup_append_of_not_found statters s f h⟩

/-- Witness for C7: on the concrete registry holding name a, re-registering
a is rejected with the duplicate error and the registry is unchanged, while
registering the fresh name b stores its factory. -/
theorem register_duplicate_and_fresh_witness :
    AddStatter [("a", 1)] "a" 2 =
      ([("a", 1)], some ("Stats type already exists: " ++ "a")) ∧
    AddStatter [("a", 1)] "b" 2 = ([("a", 1), ("b", 2)], none) ∧
    [("a", 1), ("b", 2)].lookup "b" = some 2 :=
  ⟨(register_duplicate_and_fresh [("a", 1)] "a" 2).1 1 rfl,
   ((register_duplicate_and_fresh [("a", 1)] "b" 2).2 rfl).1,
   ((register_duplicate_and_fresh [("a", 1)] "b" 2).2 rfl).2⟩

/-- C8: the GET /stats handler passes the Statistics.String() snapshot to
fmt.Fprintf as the format string, so a snapshot containing a percent
directive is corrupted: the response body is not the snapshot.  On the
snapshot "count: %d" the body is "count: %!d(MISSING)"; a percent-free
snapshot is returned verbatim with status 200. -/
theorem stats_snapshot_format_corruption :
    Hammer.statsHandler "count: %d" =
      { status := 200, body := "count: %!d(MISSING)" } ∧
    "count: %!d(MISSING)" ≠ "count: %d" ∧
    Hammer.statsHandler "hits 42" = { status := 200, body := "hits 42" } := by
  refine ⟨by decide, by decide, by decide⟩

/-- C9: the orchestrator's Run always returns nil, whatever the subsystem
run outcomes, API-server errors, or teardown failures supplied by the
environment: its declared error result is none by its only return
statement. -/
theorem run_returns_nil (env : RunEnv) : (Hammer.Run env).2 = none := rfl

/-- C10: when Init fails partway, no Stop, DeInit, or channel close has been
performed on anything constructed or initialized earlier — the failing Init
trace contains no shutdown call of any kind. -/
theorem init_failure_no_rollback (env : InitEnv) (e : Err)
    (h : (Hammer.Init env).2 = some e) :
    ((Hammer.Init env).1.all fun ev => !ev.isShutdown) = true := by
  obtain ⟨a, b, c, d, e2, f, g⟩ := env
  cases a <;> cases b <;> cases c <;> cases d <;> cases e2 <;> cases f <;>
    cases g <;> rfl

/-- Witness for C10: the concrete Init whose handler.Init fails returns that
error and its trace contains no shutdown call. -/
theorem init_failure_no_rollback_witness :
    (Hammer.Init initEnvHandlerInitFails).2 = some "handler init failed" ∧
    ((Hammer.Init initEnvHandlerInitFails).1.all fun ev => !ev.isShutdown) = true :=
  ⟨rfl, init_failure_no_rollback initEnvHandlerInitFails "handler init failed" rfl⟩

end DHammer
